import Mathlib

/-!
Shallow embedding of the link-layer core of `embodyserial`
(`src/embodyserial/embodyserial.py`): the message sender (`_MessageSender`),
the dispatcher (`_ReaderThread.__handle_incoming_message` and friends), the
bulk file-download path (`_ReaderThread.__read_file` / `download_file` and
the `EmbodySerial.download_file` facade), and the CRC-16/CCITT routine
(`_ReaderThread.__calculate_crc_ccitt`, the same algorithm the external
`embodycodec.crc.crc16` collaborator implements).

Conventions of the embedding:
* bytes are `Nat` values `< 256`; a serial stream is a `List Nat`;
  `read n` on a stream returns `stream.take n` and leaves `stream.drop n`
  (a short read happens exactly when the stream is exhausted, matching a
  device that sends its whole transmission and nothing afterwards);
* wall-clock time is abstracted by `elapsedAt : Nat -> Nat`, the elapsed
  seconds observed at loop iteration `i`; float throughput (kbps) values
  are omitted from the model and float percentage rounding is approximated
  over naturals (no theorem depends on an in-loop percentage value);
* the thread-pool submissions of listener callbacks are recorded as pure
  event lists in submission order; cross-thread interleavings are
  sequentialized (a `send` call's concurrently arriving responses are the
  explicit `arrivals` list applied between its arm step and its wait).
-/

/-- A protocol message: `msgType` is the wire `type:u8` (the dispatch key,
responses have `msgType ≥ 0x80`), `body` abstracts the payload identity. -/
structure Msg where
  msgType : Nat
  body : Nat
deriving DecidableEq, Repr

/-- The `_MessageSender` response rendezvous: `threading.Event` plus the
`__current_response_message` slot. -/
structure SenderState where
  event : Bool
  slot : Option Msg
deriving DecidableEq, Repr

/-- `_MessageSender.response_message_received`: stores the message in the
slot and sets the event. -/
def responseMessageReceived (s : SenderState) (m : Msg) : SenderState :=
  { s with slot := some m, event := true }

/-- The step `__do_send` performs just before writing the encoded bytes:
`self.__response_event.clear()`.  Only the event is cleared; the slot
(`__current_response_message`) is left as it was. -/
def armForSend (s : SenderState) : SenderState :=
  { s with event := false }

/-- `_MessageSender.__do_send`.  `isOpen` is `self.__serial.is_open`,
`writeOk` is false when `serial.write` raises `SerialException`,
`waitForResponse` mirrors `wait_for_response_secs` being truthy, and
`arrivals` are the responses delivered by the reader (via
`response_message_received`) between the arm step and the end of the
event wait. -/
def doSend (isOpen writeOk waitForResponse : Bool) (s : SenderState)
    (arrivals : List Msg) : Option Msg × SenderState :=
  if !isOpen then (none, s)
  else
    let s1 := armForSend s
    if !writeOk then (none, s1)
    else
      let s2 := arrivals.foldl responseMessageReceived s1
      if waitForResponse then
        (if s2.event then (s2.slot, s2) else (none, s2))
      else (none, s2)

/-- Outcome of `EmbodySerial.send` as seen by the caller: a returned
optional message, or an exception escaping to the caller. -/
inductive SendOutcome where
  | returned (m : Option Msg)
  | raisedRuntime
deriving DecidableEq, Repr

/-- `_MessageSender.send_message_and_wait_for_response` together with the
executor submit: once the send executor has been shut down
(`executorDown`), `ThreadPoolExecutor.submit` raises `RuntimeError`,
which nothing on this path catches (only `concurrent.futures.TimeoutError`
is caught, and a future timeout yields `None`). -/
def sendAndWait (executorDown isOpen writeOk : Bool) (s : SenderState)
    (arrivals : List Msg) : SendOutcome × SenderState :=
  if executorDown then (.raisedRuntime, s)
  else
    let r := doSend isOpen writeOk true s arrivals
    (.returned r.1, r.2)

/-- Connection-level state touched by `EmbodySerial.shutdown`. -/
structure LinkCtx where
  connected : Bool
  serialOpen : Bool
  executorDown : Bool
deriving DecidableEq, Repr

/-- `EmbodySerial.shutdown`: under the shutdown lock, if already
disconnected do nothing, else mark disconnected, close the serial port and
shut down the sender's executor. -/
def shutdownFacade (c : LinkCtx) : LinkCtx :=
  if !c.connected then c
  else { connected := false, serialOpen := false, executorDown := true }

/-- The two delivery lanes of the dispatcher. -/
inductive Lane where
  | notification
  | response
deriving DecidableEq, Repr

/-- The dispatch key: the top bit of the message type. -/
def dispatchLane (t : Nat) : Lane :=
  if t < 0x80 then .notification else .response

/-- `_ReaderThread.__handle_message`: early-return on no listeners, else
submit to every registered message listener on the notification lane.
Listeners are identified by `Nat` ids. -/
def handleMessage (msgListeners : List Nat) : List (Lane × Nat) :=
  if msgListeners.length = 0 then []
  else msgListeners.map (fun l => (Lane.notification, l))

/-- `_ReaderThread.__handle_response_message`: early-return on no
listeners, else submit to every registered response message listener on
the response lane. -/
def handleResponseMessage (respListeners : List Nat) : List (Lane × Nat) :=
  if respListeners.length = 0 then []
  else respListeners.map (fun l => (Lane.response, l))

/-- `_ReaderThread.__handle_incoming_message`: the submissions produced
for one decoded message. -/
def handleIncoming (m : Msg) (msgListeners respListeners : List Nat) :
    List (Lane × Nat) :=
  if m.msgType < 0x80 then handleMessage msgListeners
  else handleResponseMessage respListeners

/-- Effect of one dispatched message on the sender's rendezvous state:
the sender is registered as a response message listener
(`EmbodySerial.__init__`), so a response reaches
`response_message_received`; a notification leaves the sender alone. -/
def senderAfterDispatch (m : Msg) (s : SenderState) : SenderState :=
  if m.msgType < 0x80 then s else responseMessageReceived s m

/-- One byte of `_ReaderThread.__calculate_crc_ccitt` (the same
CRC-16/CCITT the `embodycodec.crc.crc16` collaborator computes):
`crc ^= b << 8`, then eight shift-xor rounds on bit 15.  As in the
source, no per-round mask is applied (high bits never reach bit 15 and
are removed by the final mask). -/
def crc16Byte (c b : Nat) : Nat :=
  (List.range 8).foldl
    (fun acc _ => if acc &&& 0x8000 ≠ 0 then (acc <<< 1) ^^^ 0x1021 else acc <<< 1)
    (c ^^^ (b <<< 8))

/-- CRC-16/CCITT over a byte list, seed `0xFFFF`, final mask `0xFFFF`. -/
def crc16 (data : List Nat) : Nat :=
  (data.foldl crc16Byte 0xFFFF) &&& 0xFFFF

/-- Errors of the bulk-download path (kinds; messages elided).
`missingResponse` covers the three `MissingResponseError` messages,
`unpackError` is the `struct.error` raised by `struct.unpack(">H", raw)`
on fewer than 2 bytes, `crcError` carries the two values embedded in the
`CrcError` message (`expected`, i.e. the CRC received on the wire, and
the `received/calculated` one computed over the buffer). -/
inductive FError where
  | missingResponse
  | timeoutError
  | unpackError
  | crcError (received calculated : Nat)
deriving DecidableEq, Repr

/-- Listener submissions and checkpoints of the bulk-download path, in
program order.  `progressNotify` is a submission of
`on_file_download_progress` with the given (rounded) percentage,
`crcCompare` marks the comparison of the received CRC with the one
calculated over the buffer, `failNotify`/`completeNotify` are the
terminal listener submissions. -/
inductive FEvent where
  | progressNotify (pct : Nat)
  | crcCompare (received calculated : Nat)
  | failNotify (e : FError)
  | completeNotify
deriving DecidableEq, Repr

/-- `__async_notify_file_download_in_progress` submits only when both
the download listener and the original file name are installed
(`notif`). -/
def emitProgress (notif : Bool) (pct : Nat) : List FEvent :=
  if notif then [.progressNotify pct] else []

/-- `__async_notify_file_download_failed`, guarded the same way. -/
def emitFail (notif : Bool) (e : FError) : List FEvent :=
  if notif then [.failNotify e] else []

/-- `__async_notify_file_download_completed`, guarded the same way (at
its call site the artifact name is also set). -/
def emitComplete (notif : Bool) : List FEvent :=
  if notif then [.completeNotify] else []

/-- The in-loop progress percentage
`round(((file_size - remaining_size) / file_size) * 100)`: float
round-to-nearest approximated over naturals (ties rounded up; no theorem
depends on this value). -/
def roundPct (done size : Nat) : Nat :=
  (done * 100 * 2 + size) / (size * 2)

/-- Result of the `while remaining_size > 0` loop of
`_ReaderThread.__read_file`. -/
structure LoopOut where
  err : Option FError
  buffer : List Nat
  stream : List Nat
  events : List FEvent
deriving DecidableEq, Repr

/-- The chunk-reading loop of `_ReaderThread.__read_file` (lines 369-393):
read up to `min(2048, remaining_size)` bytes, raise
`MissingResponseError` on an empty chunk, extend the buffer, emit a
progress notification every 20th iteration, raise `TimeoutError` when
the elapsed wall time exceeds the file timeout.  The serial port is
modelled as staying open for the duration of the loop. -/
def readFileLoop (fileSize fileTimeout : Nat) (notif : Bool)
    (elapsedAt : Nat → Nat) (stream buffer : List Nat) (remaining : Int)
    (loopCount : Nat) (events : List FEvent) : LoopOut :=
  if hrem : remaining ≤ 0 then
    ⟨none, buffer, stream, events⟩
  else
    if hchunk : stream.take (min 2048 remaining.toNat) = [] then
      ⟨some .missingResponse, buffer, stream.drop (min 2048 remaining.toNat),
        events⟩
    else
      let buffer' := buffer ++ stream.take (min 2048 remaining.toNat)
      let remaining' :=
        remaining - (stream.take (min 2048 remaining.toNat)).length
      let events' := events ++
        (if loopCount % 20 = 0 then
          emitProgress notif (roundPct (fileSize - remaining'.toNat) fileSize)
        else [])
      if elapsedAt loopCount > fileTimeout then
        ⟨some .timeoutError, buffer', stream.drop (min 2048 remaining.toNat),
          events'⟩
      else
        readFileLoop fileSize fileTimeout notif elapsedAt
          (stream.drop (min 2048 remaining.toNat)) buffer' remaining'
          (loopCount + 1) events'
termination_by remaining.toNat
decreasing_by
  have h1 : 0 < (stream.take (min 2048 remaining.toNat)).length :=
    List.length_pos.mpr hchunk
  omega

lemma readFileLoop_events_mono (fileSize fileTimeout : Nat) (notif : Bool)
    (elapsedAt : Nat → Nat) :
    ∀ (N : Nat) (stream buffer : List Nat) (remaining : Int) (lc : Nat)
      (events : List FEvent), remaining.toNat ≤ N →
      ∃ extra,
        (readFileLoop fileSize fileTimeout notif elapsedAt stream buffer
          remaining lc events).events = events ++ extra ∧
        ∀ x ∈ extra, ∃ p, x = FEvent.progressNotify p := by
  intro N
  induction N with
  | zero =>
      intro stream buffer remaining lc events hN
      have hrem : remaining ≤ 0 := by omega
      rw [readFileLoop]
      exact ⟨[], by simp [hrem], by simp⟩
  | succ n ih =>
      intro stream buffer remaining lc events hN
      rw [readFileLoop]
      by_cases hrem : remaining ≤ 0
      · exact ⟨[], by simp [hrem], by simp⟩
      · rw [dif_neg hrem]
        by_cases hchunk : stream.take (min 2048 remaining.toNat) = []
        · exact ⟨[], by simp [hchunk], by simp⟩
        · rw [dif_neg hchunk]
          have hlen : 0 < (stream.take (min 2048 remaining.toNat)).length :=
            List.length_pos.mpr hchunk
          set piece : List FEvent :=
            (if lc % 20 = 0 then
              emitProgress notif
                (roundPct
                  (fileSize -
                    (remaining -
                      ((stream.take (min 2048 remaining.toNat)).length : Int)).toNat)
                  fileSize)
            else []) with hpiece
          have hpieceP : ∀ x ∈ piece, ∃ p, x = FEvent.progressNotify p := by
            intro x hx
            rw [hpiece] at hx
            by_cases h : lc % 20 = 0
            · rw [if_pos h] at hx
              cases notif with
              | false => simp [emitProgress] at hx
              | true =>
                  simp [emitProgress] at hx
                  exact ⟨_, hx⟩
            · rw [if_neg h] at hx
              simp at hx
          by_cases htime : elapsedAt lc > fileTimeout
          · refine ⟨piece, by simp [htime, hpiece], hpieceP⟩
          · simp only [htime, if_false]
            obtain ⟨extra, hext, hextP⟩ := ih
              (stream.drop (min 2048 remaining.toNat))
              (buffer ++ stream.take (min 2048 remaining.toNat))
              (remaining - (stream.take (min 2048 remaining.toNat)).length)
              (lc + 1) (events ++ piece) (by omega)
            refine ⟨piece ++ extra, ?_, ?_⟩
            · rw [← List.append_assoc]
              simpa [hpiece] using hext
            · intro x hx
              rcases List.mem_append.mp hx with h | h
              · exact hpieceP x h
              · exact hextP x h

lemma readFileLoop_ok (fileSize fileTimeout : Nat) (notif : Bool)
    (elapsedAt : Nat → Nat) (htime : ∀ i, elapsedAt i ≤ fileTimeout) :
    ∀ (N : Nat) (stream buffer : List Nat) (remaining : Int) (lc : Nat)
      (events : List FEvent), remaining.toNat ≤ N →
      remaining.toNat ≤ stream.length →
      (readFileLoop fileSize fileTimeout notif elapsedAt stream buffer
          remaining lc events).err = none ∧
      (readFileLoop fileSize fileTimeout notif elapsedAt stream buffer
          remaining lc events).buffer =
        buffer ++ stream.take remaining.toNat ∧
      (readFileLoop fileSize fileTimeout notif elapsedAt stream buffer
          remaining lc events).stream = stream.drop remaining.toNat := by
  intro N
  induction N with
  | zero =>
      intro stream buffer remaining lc events hN hst
      have hrem : remaining ≤ 0 := by omega
      have h0 : remaining.toNat = 0 := by omega
      rw [readFileLoop]
      simp [hrem, h0]
  | succ n ih =>
      intro stream buffer remaining lc events hN hst
      rw [readFileLoop]
      by_cases hrem : remaining ≤ 0
      · have h0 : remaining.toNat = 0 := by omega
        simp [hrem, h0]
      · rw [dif_neg hrem]
        have hpos : 0 < remaining.toNat := by omega
        have hminpos : 0 < min 2048 remaining.toNat := by omega
        have hchunk : ¬ stream.take (min 2048 remaining.toNat) = [] := by
          intro h
          rcases List.take_eq_nil_iff.mp h with h' | h'
          · omega
          · rw [h'] at hst
            simp at hst
            omega
        rw [dif_neg hchunk]
        have hlen : (stream.take (min 2048 remaining.toNat)).length =
            min 2048 remaining.toNat := by
          rw [List.length_take]
          omega
        have hng : ¬ elapsedAt lc > fileTimeout := by
          have := htime lc
          omega
        simp only [hng, if_false]
        obtain ⟨ih1, ih2, ih3⟩ := ih
          (stream.drop (min 2048 remaining.toNat))
          (buffer ++ stream.take (min 2048 remaining.toNat))
          (remaining - (stream.take (min 2048 remaining.toNat)).length)
          (lc + 1)
          (events ++
            (if lc % 20 = 0 then
              emitProgress notif
                (roundPct
                  (fileSize -
                    (remaining -
                      ((stream.take (min 2048 remaining.toNat)).length : Int)).toNat)
                  fileSize)
            else []))
          (by omega)
          (by
            rw [List.length_drop]
            omega)
        refine ⟨ih1, ?_, ?_⟩
        · rw [ih2]
          have harith :
              (remaining -
                ((stream.take (min 2048 remaining.toNat)).length : Int)).toNat =
              remaining.toNat - min 2048 remaining.toNat := by
            omega
          rw [harith, List.append_assoc]
          congr 1
          rw [← List.take_add]
          congr 1
          omega
        · rw [ih3]
          have harith :
              (remaining -
                ((stream.take (min 2048 remaining.toNat)).length : Int)).toNat =
              remaining.toNat - min 2048 remaining.toNat := by
            omega
          rw [harith, List.drop_drop]
          congr 1
          omega

/-- `struct.unpack(">H", raw)`: succeeds only on exactly two bytes. -/
def unpackBE16 (bs : List Nat) : Option Nat :=
  match bs with
  | [a, b] => some (a * 256 + b)
  | _ => none

/-- Outcome of `_ReaderThread.__read_file`: the artifact contents (the
temp file written on success), the stored `__file_error`, the listener
submissions in order, and whether `__file_event` was set (the `finally`
clause always sets it). -/
structure ReadFileResult where
  fileName : Option (List Nat)
  fileError : Option FError
  events : List FEvent
  eventSet : Bool
deriving DecidableEq, Repr

/-- The tail of `_ReaderThread.__read_file` after the loop (lines
394-420): read 2 CRC bytes, submit the literal-100% progress
notification, unpack the CRC, compare with the CRC calculated over the
whole buffer; on mismatch store a `CrcError` and notify failure, on
success materialize the buffer and notify completion. -/
def readFileFinish (notif : Bool) (events0 : List FEvent)
    (buffer stream : List Nat) : ReadFileResult :=
  let rawCrc := stream.take 2
  let events1 := events0 ++ emitProgress notif 100
  match unpackBE16 rawCrc with
  | none =>
      { fileName := none, fileError := some .unpackError,
        events := events1 ++ emitFail notif .unpackError, eventSet := true }
  | some crcReceived =>
      let calculated := crc16 buffer
      let events2 := events1 ++ [.crcCompare crcReceived calculated]
      if crcReceived ≠ calculated then
        { fileName := none,
          fileError := some (.crcError crcReceived calculated),
          events := events2 ++ emitFail notif (.crcError crcReceived calculated),
          eventSet := true }
      else
        { fileName := some buffer, fileError := none,
          events := events2 ++ emitComplete notif, eventSet := true }

/-- The `try`/`except`/`finally` of `_ReaderThread.__read_file` around
the loop outcome: an exception raised in the loop
(`MissingResponseError`, `TimeoutError`) stores `__file_error` and
notifies failure; otherwise control falls through to the CRC tail; the
`finally` clause sets `__file_event` in every case. -/
def readFileAfterLoop (notif : Bool) (lo : LoopOut) : ReadFileResult :=
  match lo.err with
  | some e =>
      { fileName := none, fileError := some e,
        events := lo.events ++ emitFail notif e, eventSet := true }
  | none => readFileFinish notif lo.events lo.buffer lo.stream

/-- `_ReaderThread.__read_file`: seed the buffer with the 3 already-read
header bytes, set `remaining_size = file_size - len(first_bytes)`, run
the loop, then the CRC tail (`readFileAfterLoop`). -/
def readFile (fileSize fileTimeout : Nat) (notif : Bool)
    (elapsedAt : Nat → Nat) (firstBytes stream : List Nat) : ReadFileResult :=
  readFileAfterLoop notif
    (readFileLoop fileSize fileTimeout notif elapsedAt stream firstBytes
      ((fileSize : Int) - firstBytes.length) 0 [])

/-- The reader thread in file mode (`_ReaderThread.run`): the framing
loop reads 3 header bytes and, since `__file_mode` is set, hands them to
`__read_file` as the first bytes of the file payload. -/
def readerProcess (fileSize fileTimeout : Nat) (notif : Bool)
    (elapsedAt : Nat → Nat) (deviceStream : List Nat) : ReadFileResult :=
  readFile fileSize fileTimeout notif elapsedAt
    (deviceStream.take 3) (deviceStream.drop 3)

/-- The read-timeout of the link after `download_file`'s `finally`
clause: it was set to 10 on entry and is written back only when the
saved `__read_timeout` was truthy (`None` and `0` are falsy in Python,
so the 10-second value persists). -/
def restoreTimeout (priorTimeout : Option Nat) : Option Nat :=
  match priorTimeout with
  | some t => if t ≠ 0 then some t else some 10
  | none => some 10

/-- Outcome of `_ReaderThread.download_file`. -/
structure DownloadOut where
  result : Except FError (List Nat)
  events : List FEvent
  finalFileMode : Bool
  finalTimeout : Option Nat
  eventSetDuringRead : Bool
deriving Repr

/-- `_ReaderThread.download_file` (lines 277-309): tighten the link
timeout to 10, reset and install file-mode state, set `__file_mode`,
wait for `__file_event` (a `waitTimedOut` wait raises
`MissingResponseError`), re-raise any stored `__file_error` (or raise
`MissingResponseError` when no artifact was produced), notify the
download listener of the failure in the `except` clause, and in the
`finally` clause reset file-mode state and restore a truthy saved
read-timeout.  The reader's processing of the device stream during the
wait is `readerProcess`.  This definition is the post-wait part, applied
to the reader's outcome `r`. -/
def downloadOutcome (notif : Bool) (priorTimeout : Option Nat)
    (r : ReadFileResult) : DownloadOut :=
  match r.fileError with
  | some e =>
      { result := .error e, events := r.events ++ emitFail notif e,
        finalFileMode := false, finalTimeout := restoreTimeout priorTimeout,
        eventSetDuringRead := r.eventSet }
  | none =>
      match r.fileName with
      | some contents =>
          { result := .ok contents, events := r.events,
            finalFileMode := false,
            finalTimeout := restoreTimeout priorTimeout,
            eventSetDuringRead := r.eventSet }
      | none =>
          { result := .error .missingResponse,
            events := r.events ++ emitFail notif .missingResponse,
            finalFileMode := false,
            finalTimeout := restoreTimeout priorTimeout,
            eventSetDuringRead := r.eventSet }

/-- `_ReaderThread.download_file`, start to finish: a timed-out wait on
`__file_event` raises `MissingResponseError` (notified and re-raised),
otherwise the outcome is `downloadOutcome` of what the reader produced
from the device stream during the wait. -/
def downloadFileReader (fileSize fileTimeout : Nat) (notif : Bool)
    (elapsedAt : Nat → Nat) (priorTimeout : Option Nat) (waitTimedOut : Bool)
    (deviceStream : List Nat) : DownloadOut :=
  if waitTimedOut then
    { result := .error .missingResponse,
      events := emitFail notif .missingResponse,
      finalFileMode := false, finalTimeout := restoreTimeout priorTimeout,
      eventSetDuringRead := false }
  else
    downloadOutcome notif priorTimeout
      (readerProcess fileSize fileTimeout notif elapsedAt deviceStream)

/-- The observable steps of `EmbodySerial.download_file`, in program
order. -/
inductive FacadeStep where
  | returnEmptyTemp
  | submitFileRequest
  | tightenTimeout
  | setFileModeTrue
  | waitCompletion
deriving DecidableEq, Repr

/-- `EmbodySerial.download_file` (lines 113-132): `size == 0` returns a
fresh empty temp artifact at once; otherwise `send_async(GetFileUart(...))`
is submitted to the send executor, and only then does
`_ReaderThread.download_file` tighten the read-timeout, set
`__file_mode = True` and block on the completion event, yielding
`downloadFileReader`'s outcome. -/
def downloadFileFacadeRun (size fileTimeout : Nat) (notif : Bool)
    (elapsedAt : Nat → Nat) (priorTimeout : Option Nat) (waitTimedOut : Bool)
    (deviceStream : List Nat) : List FacadeStep × Except FError (List Nat) :=
  if size = 0 then ([.returnEmptyTemp], .ok [])
  else
    ([.submitFileRequest, .tightenTimeout, .setFileModeTrue, .waitCompletion],
      (downloadFileReader size fileTimeout notif elapsedAt priorTimeout
        waitTimedOut deviceStream).result)

lemma foldl_recv_event (l : List Msg) :
    ∀ s : SenderState,
      (l.foldl responseMessageReceived s).event = (s.event || !l.isEmpty) := by
  induction l with
  | nil => intro s; simp
  | cons a t ih =>
      intro s
      rw [List.foldl_cons, ih]
      simp [responseMessageReceived]

lemma foldl_recv_slot_mem (l : List Msg) :
    ∀ (s : SenderState) (m : Msg), l ≠ [] →
      (l.foldl responseMessageReceived s).slot = some m → m ∈ l := by
  induction l with
  | nil => intro s m h; cases h rfl
  | cons a t ih =>
      intro s m _ h
      rw [List.foldl_cons] at h
      by_cases ht : t = []
      · subst ht
        simp [responseMessageReceived] at h
        simp [h]
      · exact List.mem_cons_of_mem _ (ih (responseMessageReceived s a) m ht h)

lemma count_fail_zero (l : List FEvent) (e : FError)
    (h : ∀ x ∈ l, ∃ p, x = FEvent.progressNotify p) :
    l.count (FEvent.failNotify e) = 0 := by
  rw [List.count_eq_zero]
  intro hmem
  rcases h _ hmem with ⟨p, hp⟩
  simp at hp

lemma downloadFileReader_finally (fileSize fileTimeout : Nat) (notif : Bool)
    (elapsedAt : Nat → Nat) (priorTimeout : Option Nat) (waitTimedOut : Bool)
    (deviceStream : List Nat) :
    (downloadFileReader fileSize fileTimeout notif elapsedAt priorTimeout
        waitTimedOut deviceStream).finalFileMode = false ∧
    (downloadFileReader fileSize fileTimeout notif elapsedAt priorTimeout
        waitTimedOut deviceStream).finalTimeout = restoreTimeout priorTimeout := by
  unfold downloadFileReader downloadOutcome
  by_cases hw : waitTimedOut
  · simp [hw]
  · simp only [hw, Bool.false_eq_true, if_false]
    rcases h : (readerProcess fileSize fileTimeout notif elapsedAt
        deviceStream).fileError with _ | e
    · rcases h2 : (readerProcess fileSize fileTimeout notif elapsedAt
          deviceStream).fileName with _ | c <;> simp [h, h2]
    · simp [h]

lemma readerProcess_spec (fileSize fileTimeout : Nat) (notif : Bool)
    (elapsedAt : Nat → Nat) (deviceStream : List Nat)
    (hsz : 3 ≤ fileSize) (hlen : fileSize + 2 ≤ deviceStream.length)
    (htime : ∀ i, elapsedAt i ≤ fileTimeout) :
    ∃ events0, (∀ x ∈ events0, ∃ p, x = FEvent.progressNotify p) ∧
      readerProcess fileSize fileTimeout notif elapsedAt deviceStream =
        readFileFinish notif events0 (deviceStream.take fileSize)
          (deviceStream.drop fileSize) := by
  unfold readerProcess readFile
  have hfb : ((deviceStream.take 3).length : Int) = 3 := by
    rw [List.length_take]
    omega
  have hremtn :
      ((fileSize : Int) - ((deviceStream.take 3).length : Int)).toNat =
        fileSize - 3 := by
    rw [hfb]
    omega
  obtain ⟨h1, h2, h3⟩ := readFileLoop_ok fileSize fileTimeout notif elapsedAt
    htime (fileSize - 3) (deviceStream.drop 3) (deviceStream.take 3)
    ((fileSize : Int) - ((deviceStream.take 3).length : Int)) 0 []
    (by omega) (by rw [List.length_drop]; omega)
  obtain ⟨extra, hext, hextP⟩ := readFileLoop_events_mono fileSize fileTimeout
    notif elapsedAt (fileSize - 3) (deviceStream.drop 3) (deviceStream.take 3)
    ((fileSize : Int) - ((deviceStream.take 3).length : Int)) 0 [] (by omega)
  refine ⟨(readFileLoop fileSize fileTimeout notif elapsedAt
      (deviceStream.drop 3) (deviceStream.take 3)
      ((fileSize : Int) - ((deviceStream.take 3).length : Int)) 0 []).events,
    ?_, ?_⟩
  · intro x hx
    rw [hext] at hx
    simp only [List.nil_append] at hx
    exact hextP x hx
  · unfold readFileAfterLoop
    rw [h1]
    have hbuf : (readFileLoop fileSize fileTimeout notif elapsedAt
        (deviceStream.drop 3) (deviceStream.take 3)
        ((fileSize : Int) - ((deviceStream.take 3).length : Int)) 0 []).buffer =
        deviceStream.take fileSize := by
      rw [h2, hremtn]
      have hsum : fileSize = 3 + (fileSize - 3) := by omega
      rw [hsum, List.take_add]
      simp
    have hstr : (readFileLoop fileSize fileTimeout notif elapsedAt
        (deviceStream.drop 3) (deviceStream.take 3)
        ((fileSize : Int) - ((deviceStream.take 3).length : Int)) 0 []).stream =
        deviceStream.drop fileSize := by
      rw [h3, hremtn, List.drop_drop]
      congr 1
      omega
    rw [hbuf, hstr]

/-- C2, counterexample: `__do_send`'s step before the write
(`self.__response_event.clear()`) clears only the event; the response
slot (`__current_response_message`) keeps any previously stored message,
so the claim that both the event and the slot are cleared before the
write is false, here at a state holding a stale response `⟨0x81, 7⟩`. -/
theorem c2_cex_slot_not_cleared :
    (armForSend ⟨true, some ⟨0x81, 7⟩⟩).event = false ∧
    (armForSend ⟨true, some ⟨0x81, 7⟩⟩).slot = some ⟨0x81, 7⟩ ∧
    (armForSend ⟨true, some ⟨0x81, 7⟩⟩).slot ≠ none := by
  refine ⟨rfl, rfl, by decide⟩

/-- C2, amended: before writing, `__do_send` clears the response event
only — the slot is left untouched; nevertheless, whenever the send
returns a message, that message is one delivered by the reader after the
arm step (never a response stored before this send armed). -/
theorem c2_arm_clears_event_only (s : SenderState) (arrivals : List Msg)
    (m : Msg) (writeOk : Bool)
    (h : (doSend true writeOk true s arrivals).1 = some m) :
    m ∈ arrivals ∧ (armForSend s).event = false ∧
    (armForSend s).slot = s.slot := by
  refine ⟨?_, rfl, rfl⟩
  cases writeOk with
  | false => simp [doSend] at h
  | true =>
      simp only [doSend, Bool.not_true, Bool.false_eq_true, if_false,
        if_true] at h
      by_cases he :
          (arrivals.foldl responseMessageReceived (armForSend s)).event = true
      · rw [if_pos he] at h
        simp only at h
        have hne : arrivals ≠ [] := by
          intro hnil
          rw [hnil] at he
          simp [armForSend] at he
        exact foldl_recv_slot_mem arrivals (armForSend s) m hne h
      · rw [if_neg he] at h
        simp at h

/-- C2, witness for the amended theorem. -/
theorem c2_arm_clears_event_only_witness :
    (⟨0x82, 9⟩ : Msg) ∈ [(⟨0x82, 9⟩ : Msg)] ∧
    (armForSend ⟨false, some ⟨0x81, 7⟩⟩).event = false ∧
    (armForSend ⟨false, some ⟨0x81, 7⟩⟩).slot =
      (⟨false, some ⟨0x81, 7⟩⟩ : SenderState).slot :=
  c2_arm_clears_event_only ⟨false, some ⟨0x81, 7⟩⟩ [⟨0x82, 9⟩] ⟨0x82, 9⟩ true
    (by decide)

/-- C3: for every decoded message exactly one lane is used, keyed on
`msg_type ≥ 0x80`: a response is submitted to every registered response
message listener (and, the sender being one of them, is stored in the
response slot with the response event signalled), a notification is
submitted to every registered message listener only. -/
theorem c3_single_lane_dispatch (m : Msg) (msgListeners respListeners : List Nat)
    (s : SenderState) :
    ((handleIncoming m msgListeners respListeners).all
      (fun p => p.1 == dispatchLane m.msgType)) = true ∧
    ((handleIncoming m msgListeners respListeners).map Prod.snd =
      if m.msgType < 0x80 then msgListeners else respListeners) ∧
    (senderAfterDispatch m s =
      if m.msgType < 0x80 then s else ⟨true, some m⟩) := by
  refine ⟨?_, ?_, ?_⟩ <;> by_cases h : m.msgType < 0x80
  · by_cases hl : msgListeners.length = 0 <;>
      simp [handleIncoming, handleMessage, dispatchLane, h, hl]
  · by_cases hl : respListeners.length = 0 <;>
      simp [handleIncoming, handleResponseMessage, dispatchLane, h, hl]
  · by_cases hl : msgListeners.length = 0
    · simp [handleIncoming, handleMessage, h, hl,
        List.length_eq_zero.mp hl]
    · simp [handleIncoming, handleMessage, h, hl]
  · by_cases hl : respListeners.length = 0
    · simp [handleIncoming, handleResponseMessage, h, hl,
        List.length_eq_zero.mp hl]
    · simp [handleIncoming, handleResponseMessage, h, hl]
  · simp [senderAfterDispatch, h]
  · simp [senderAfterDispatch, responseMessageReceived, h]

/-- C4, counterexample: after `EmbodySerial.shutdown()` the send
executor is shut down, so a subsequent `send` raises `RuntimeError` from
`ThreadPoolExecutor.submit` instead of returning `None`. -/
theorem c4_cex_send_after_shutdown_raises :
    (sendAndWait (shutdownFacade ⟨true, true, false⟩).executorDown
      (shutdownFacade ⟨true, true, false⟩).serialOpen true
      ⟨false, none⟩ []).1 = SendOutcome.raisedRuntime ∧
    (sendAndWait (shutdownFacade ⟨true, true, false⟩).executorDown
      (shutdownFacade ⟨true, true, false⟩).serialOpen true
      ⟨false, none⟩ []).1 ≠ SendOutcome.returned none := by
  refine ⟨rfl, by decide⟩

/-- C4, amended: while the send executor is alive, `send` returns `None`
without raising when the link is not open, when the write raises
`SerialException`, and when no response arrives within the timeout; a
`send` after `shutdown()` (executor shut down) instead raises
`RuntimeError`. -/
theorem c4_send_failures_return_none (s : SenderState) (arrivals : List Msg)
    (writeOk : Bool) :
    (sendAndWait false false writeOk s arrivals).1 =
      SendOutcome.returned none ∧
    (sendAndWait false true false s arrivals).1 =
      SendOutcome.returned none ∧
    (sendAndWait false true true s []).1 = SendOutcome.returned none ∧
    (sendAndWait true true true s arrivals).1 =
      SendOutcome.raisedRuntime := by
  refine ⟨?_, ?_, ?_, rfl⟩
  · simp [sendAndWait, doSend]
  · simp [sendAndWait, doSend]
  · simp [sendAndWait, doSend, armForSend]

/-- C6, counterexample: at `size = 1` the facade submits the
`GetFileUart` request to the send executor before the reader enters file
mode, so `file_mode` is not set before the request is issued. -/
theorem c6_cex_request_submitted_before_file_mode :
    (downloadFileFacadeRun 1 300 true (fun _ => 0) none false []).1 =
      [.submitFileRequest, .tightenTimeout, .setFileModeTrue,
        .waitCompletion] ∧
    (downloadFileFacadeRun 1 300 true (fun _ => 0) none false []).1.indexOf
        FacadeStep.submitFileRequest <
      (downloadFileFacadeRun 1 300 true (fun _ => 0) none false []).1.indexOf
        FacadeStep.setFileModeTrue := by
  refine ⟨rfl, by decide⟩

/-- C6, amended: for every `size > 0` the facade first submits the
`GetFileUart` request, and only then does the reader tighten the link
read-timeout, set `file_mode` to true and block on the completion
event. -/
theorem c6_request_then_file_mode (size fileTimeout : Nat) (notif : Bool)
    (elapsedAt : Nat → Nat) (priorTimeout : Option Nat) (waitTimedOut : Bool)
    (deviceStream : List Nat) (hsz : 0 < size) :
    (downloadFileFacadeRun size fileTimeout notif elapsedAt priorTimeout
        waitTimedOut deviceStream).1 =
      [.submitFileRequest, .tightenTimeout, .setFileModeTrue,
        .waitCompletion] := by
  unfold downloadFileFacadeRun
  rw [if_neg (by omega)]

/-- C6, witness for the amended theorem. -/
theorem c6_request_then_file_mode_witness :
    (downloadFileFacadeRun 1 300 true (fun _ => 0) none false [1, 2, 3]).1 =
      [.submitFileRequest, .tightenTimeout, .setFileModeTrue,
        .waitCompletion] :=
  c6_request_then_file_mode 1 300 true (fun _ => 0) none false [1, 2, 3]
    (by decide)

/-- C7: `download_file` with `size == 0` immediately returns a fresh
empty temp artifact, submits no `GetFileUart` request and never enters
file mode. -/
theorem c7_size_zero_short_circuits (fileTimeout : Nat) (notif : Bool)
    (elapsedAt : Nat → Nat) (priorTimeout : Option Nat) (waitTimedOut : Bool)
    (deviceStream : List Nat) :
    downloadFileFacadeRun 0 fileTimeout notif elapsedAt priorTimeout
        waitTimedOut deviceStream = ([.returnEmptyTemp], .ok []) ∧
    (downloadFileFacadeRun 0 fileTimeout notif elapsedAt priorTimeout
        waitTimedOut deviceStream).1.contains FacadeStep.submitFileRequest =
      false ∧
    (downloadFileFacadeRun 0 fileTimeout notif elapsedAt priorTimeout
        waitTimedOut deviceStream).1.contains FacadeStep.setFileModeTrue =
      false := by
  refine ⟨rfl, rfl, rfl⟩

/-- C8, counterexample: a download over a link whose prior read-timeout
was unset (`None`) ends with the read-timeout left at the 10 seconds
installed by `download_file`, not restored to `None`. -/
theorem c8_cex_none_timeout_not_restored :
    (downloadFileReader 3 300 true (fun _ => 0) none false
        [1, 2, 3, 0, 0]).finalTimeout = some 10 ∧
    (downloadFileReader 3 300 true (fun _ => 0) none false
        [1, 2, 3, 0, 0]).finalTimeout ≠ none := by
  obtain ⟨h1, h2⟩ := downloadFileReader_finally 3 300 true (fun _ => 0) none
    false [1, 2, 3, 0, 0]
  rw [h2]
  exact ⟨rfl, by decide⟩

/-- C8, amended: after every download (success, failure or wait
timeout), `file_mode` is false again, and the link read-timeout is
restored to its prior value only when that value was truthy; a prior
`None` (or `0`) read-timeout leaves the 10-second timeout in place. -/
theorem c8_timeout_restore_rule (fileSize fileTimeout : Nat) (notif : Bool)
    (elapsedAt : Nat → Nat) (priorTimeout : Option Nat) (waitTimedOut : Bool)
    (deviceStream : List Nat) :
    (downloadFileReader fileSize fileTimeout notif elapsedAt priorTimeout
        waitTimedOut deviceStream).finalFileMode = false ∧
    (downloadFileReader fileSize fileTimeout notif elapsedAt priorTimeout
        waitTimedOut deviceStream).finalTimeout =
      (match priorTimeout with
        | some t => if t ≠ 0 then some t else some 10
        | none => some 10) := by
  obtain ⟨h1, h2⟩ := downloadFileReader_finally fileSize fileTimeout notif
    elapsedAt priorTimeout waitTimedOut deviceStream
  exact ⟨h1, by rw [h2]; rfl⟩

/-- C1: for a 1-byte bulk download whose device stream is exactly the
payload byte followed by the two CRC bytes, the code buffers all three
bytes of the 3-byte framing read as file payload and then tries to read
two further CRC bytes that the device never sends, so the download fails
(the CRC tail unpack gets fewer than 2 bytes) instead of treating only
the first byte as payload and completing — contradicting the repo's own
`test_1_byte_file_download` ("Bug #2 fix"). -/
theorem c1_small_file_header_bytes_all_buffered (b c1 c2 : Nat) :
    (readerProcess 1 300 true (fun _ => 0) [b, c1, c2]).fileName = none ∧
    (readerProcess 1 300 true (fun _ => 0) [b, c1, c2]).fileError =
      some FError.unpackError ∧
    (readerProcess 1 300 true (fun _ => 0) [b, c1, c2]).eventSet = true := by
  unfold readerProcess readFile readFileAfterLoop
  rw [readFileLoop]
  norm_num [readFileFinish, unpackBE16, emitProgress, emitFail]

lemma readFile_fail_count (fileSize fileTimeout : Nat) (elapsedAt : Nat → Nat)
    (firstBytes stream : List Nat) (e : FError)
    (he : (readFile fileSize fileTimeout true elapsedAt firstBytes
        stream).fileError = some e) :
    (readFile fileSize fileTimeout true elapsedAt firstBytes
        stream).events.count (FEvent.failNotify e) = 1 := by
  obtain ⟨extra, hext, hextP⟩ := readFileLoop_events_mono fileSize fileTimeout
    true elapsedAt ((fileSize : Int) - firstBytes.length).toNat stream
    firstBytes ((fileSize : Int) - firstBytes.length) 0 [] le_rfl
  have hzero : ∀ e' : FError,
      (readFileLoop fileSize fileTimeout true elapsedAt stream firstBytes
        ((fileSize : Int) - firstBytes.length) 0 []).events.count
        (FEvent.failNotify e') = 0 := by
    intro e'
    rw [hext]
    simp only [List.nil_append]
    exact count_fail_zero _ _ hextP
  unfold readFile readFileAfterLoop at he ⊢
  rcases herr : (readFileLoop fileSize fileTimeout true elapsedAt stream
      firstBytes ((fileSize : Int) - firstBytes.length) 0 []).err with _ | e'
  · rw [herr] at he
    simp only [readFileFinish] at he ⊢
    rcases hupk : unpackBE16 ((readFileLoop fileSize fileTimeout true elapsedAt
        stream firstBytes ((fileSize : Int) - firstBytes.length) 0
        []).stream.take 2) with _ | r
    · rw [hupk] at he
      simp only [Option.some.injEq] at he
      subst he
      simp [List.count_append, hzero, emitProgress, emitFail, List.count_cons]
    · rw [hupk] at he
      by_cases hmis : r = crc16 (readFileLoop fileSize fileTimeout true
          elapsedAt stream firstBytes ((fileSize : Int) - firstBytes.length) 0
          []).buffer
      · simp [hmis] at he
      · simp only [ne_eq, hmis, not_false_eq_true, if_true,
          Option.some.injEq] at he
        subst he
        simp [hmis, List.count_append, hzero, emitProgress, emitFail,
          List.count_cons]
  · rw [herr] at he
    simp only [Option.some.injEq] at he
    subst he
    simp [List.count_append, hzero, emitFail, List.count_cons]

lemma readerProcess_fail_count (fileSize fileTimeout : Nat)
    (elapsedAt : Nat → Nat) (deviceStream : List Nat) (e : FError)
    (he : (readerProcess fileSize fileTimeout true elapsedAt
        deviceStream).fileError = some e) :
    (readerProcess fileSize fileTimeout true elapsedAt
        deviceStream).events.count (FEvent.failNotify e) = 1 := by
  unfold readerProcess at he ⊢
  exact readFile_fail_count fileSize fileTimeout elapsedAt _ _ e he

/-- C9: whenever the reader's read loop stores a file error (e.g. a CRC
mismatch or a missing chunk), the download listener's
`on_file_download_failed` is submitted twice for that same error — once
from `__read_file`'s error path and once more from `download_file` when
it re-raises the stored error — and the error is what `download_file`
raises. -/
theorem c9_failure_notified_twice (fileSize fileTimeout : Nat)
    (elapsedAt : Nat → Nat) (priorTimeout : Option Nat)
    (deviceStream : List Nat) (e : FError)
    (he : (readerProcess fileSize fileTimeout true elapsedAt
        deviceStream).fileError = some e) :
    (downloadFileReader fileSize fileTimeout true elapsedAt priorTimeout false
        deviceStream).events.count (FEvent.failNotify e) = 2 ∧
    (downloadFileReader fileSize fileTimeout true elapsedAt priorTimeout false
        deviceStream).result = Except.error e := by
  have h1 := readerProcess_fail_count fileSize fileTimeout elapsedAt
    deviceStream e he
  unfold downloadFileReader downloadOutcome
  rw [he]
  simp [List.count_append, h1, emitFail, List.count_cons]

/-- C9, witness: a 4-byte download whose device stream ends after the
3-byte framing read; the reader raises `MissingResponseError` on the
empty chunk and the failure is notified twice. -/
theorem c9_failure_notified_twice_witness :
    (downloadFileReader 4 300 true (fun _ => 0) none false
        [9, 9, 9]).events.count (FEvent.failNotify FError.missingResponse) =
      2 ∧
    (downloadFileReader 4 300 true (fun _ => 0) none false [9, 9, 9]).result =
      Except.error FError.missingResponse :=
  c9_failure_notified_twice 4 300 (fun _ => 0) none [9, 9, 9]
    FError.missingResponse
    (by
      unfold readerProcess readFile readFileAfterLoop
      rw [readFileLoop]
      norm_num)

/-- C5: a complete bulk download whose two trailing CRC bytes do not
match the CRC-16/CCITT of the buffered payload makes `download_file`
raise a `CrcError` carrying the received (wire) and calculated values,
the file-completion event is still set by the reader, `file_mode` ends
false, and a subsequent `send` on the open link still returns the
response that arrives for it. -/
theorem c5_crc_mismatch_raises_crc_error (fileSize fileTimeout : Nat)
    (elapsedAt : Nat → Nat) (priorTimeout : Option Nat)
    (deviceStream : List Nat) (a b : Nat) (m : Msg)
    (hsz : 3 ≤ fileSize)
    (hcrc : deviceStream.drop fileSize = [a, b])
    (htime : ∀ i, elapsedAt i ≤ fileTimeout)
    (hmis : a * 256 + b ≠ crc16 (deviceStream.take fileSize)) :
    (downloadFileReader fileSize fileTimeout true elapsedAt priorTimeout false
        deviceStream).result =
      Except.error (FError.crcError (a * 256 + b)
        (crc16 (deviceStream.take fileSize))) ∧
    (readerProcess fileSize fileTimeout true elapsedAt deviceStream).eventSet =
      true ∧
    (downloadFileReader fileSize fileTimeout true elapsedAt priorTimeout false
        deviceStream).finalFileMode = false ∧
    (sendAndWait false true true ⟨false, none⟩ [m]).1 =
      SendOutcome.returned (some m) := by
  have hlen : fileSize + 2 ≤ deviceStream.length := by
    have hge := congrArg List.length hcrc
    rw [List.length_drop] at hge
    simp at hge
    omega
  obtain ⟨ev0, hev0, hproc⟩ := readerProcess_spec fileSize fileTimeout true
    elapsedAt deviceStream hsz hlen htime
  rw [hcrc] at hproc
  have hfin : readFileFinish true ev0 (deviceStream.take fileSize) [a, b] =
      { fileName := none,
        fileError := some (FError.crcError (a * 256 + b)
          (crc16 (deviceStream.take fileSize))),
        events := ((ev0 ++ [FEvent.progressNotify 100]) ++
          [FEvent.crcCompare (a * 256 + b)
            (crc16 (deviceStream.take fileSize))]) ++
          [FEvent.failNotify (FError.crcError (a * 256 + b)
            (crc16 (deviceStream.take fileSize)))],
        eventSet := true } := by
    simp [readFileFinish, unpackBE16, emitProgress, emitFail, hmis]
  refine ⟨?_, ?_, ?_, ?_⟩
  · unfold downloadFileReader downloadOutcome
    rw [hproc, hfin]
    simp
  · rw [hproc, hfin]
  · exact (downloadFileReader_finally fileSize fileTimeout true elapsedAt
      priorTimeout false deviceStream).1
  · simp [sendAndWait, doSend, armForSend, responseMessageReceived]

/-- C5, witness: a 3-byte download `[1, 2, 3]` delivered with trailing
CRC bytes `0, 0`, which do not match `crc16 [1, 2, 3]`. -/
theorem c5_crc_mismatch_raises_crc_error_witness :
    (downloadFileReader 3 300 true (fun _ => 0) (some 300) false
        [1, 2, 3, 0, 0]).result =
      Except.error (FError.crcError (0 * 256 + 0)
        (crc16 (List.take 3 [1, 2, 3, 0, 0]))) ∧
    (readerProcess 3 300 true (fun _ => 0) [1, 2, 3, 0, 0]).eventSet = true ∧
    (downloadFileReader 3 300 true (fun _ => 0) (some 300) false
        [1, 2, 3, 0, 0]).finalFileMode = false ∧
    (sendAndWait false true true ⟨false, none⟩ [(⟨0x81, 5⟩ : Msg)]).1 =
      SendOutcome.returned (some ⟨0x81, 5⟩) :=
  c5_crc_mismatch_raises_crc_error 3 300 (fun _ => 0) (some 300)
    [1, 2, 3, 0, 0] 0 0 ⟨0x81, 5⟩ (by decide) (by decide)
    (fun i => Nat.zero_le _) (by decide)

/-- C10: when every expected payload byte arrives (stream = payload plus
two CRC bytes), the reader submits the 100% progress notification
strictly before the CRC comparison, so the 100% callback is submitted
even on a download that then fails the CRC check and produces no
artifact. -/
theorem c10_progress_100_before_crc_verification (fileSize fileTimeout : Nat)
    (elapsedAt : Nat → Nat) (deviceStream : List Nat) (a b : Nat)
    (hsz : 3 ≤ fileSize)
    (hcrc : deviceStream.drop fileSize = [a, b])
    (htime : ∀ i, elapsedAt i ≤ fileTimeout)
    (hmis : a * 256 + b ≠ crc16 (deviceStream.take fileSize)) :
    (∃ eventsBefore eventsAfter,
      (readerProcess fileSize fileTimeout true elapsedAt deviceStream).events =
        eventsBefore ++ FEvent.progressNotify 100 ::
          FEvent.crcCompare (a * 256 + b)
            (crc16 (deviceStream.take fileSize)) :: eventsAfter) ∧
    (readerProcess fileSize fileTimeout true elapsedAt
        deviceStream).fileName = none ∧
    (readerProcess fileSize fileTimeout true elapsedAt
        deviceStream).fileError =
      some (FError.crcError (a * 256 + b)
        (crc16 (deviceStream.take fileSize))) := by
  have hlen : fileSize + 2 ≤ deviceStream.length := by
    have hge := congrArg List.length hcrc
    rw [List.length_drop] at hge
    simp at hge
    omega
  obtain ⟨ev0, hev0, hproc⟩ := readerProcess_spec fileSize fileTimeout true
    elapsedAt deviceStream hsz hlen htime
  rw [hcrc] at hproc
  rw [hproc]
  refine ⟨⟨ev0, [FEvent.failNotify (FError.crcError (a * 256 + b)
    (crc16 (deviceStream.take fileSize)))], ?_⟩, ?_, ?_⟩ <;>
    simp [readFileFinish, unpackBE16, emitProgress, emitFail, hmis]

/-- C10, witness: a 4-byte download `[5, 6, 7, 8]` delivered with
trailing CRC bytes `1, 1`, which do not match `crc16 [5, 6, 7, 8]`. -/
theorem c10_progress_100_before_crc_verification_witness :
    (∃ eventsBefore eventsAfter,
      (readerProcess 4 300 true (fun _ => 0) [5, 6, 7, 8, 1, 1]).events =
        eventsBefore ++ FEvent.progressNotify 100 ::
          FEvent.crcCompare (1 * 256 + 1)
            (crc16 (List.take 4 [5, 6, 7, 8, 1, 1])) :: eventsAfter) ∧
    (readerProcess 4 300 true (fun _ => 0)
        [5, 6, 7, 8, 1, 1]).fileName = none ∧
    (readerProcess 4 300 true (fun _ => 0)
        [5, 6, 7, 8, 1, 1]).fileError =
      some (FError.crcError (1 * 256 + 1)
        (crc16 (List.take 4 [5, 6, 7, 8, 1, 1]))) :=
  c10_progress_100_before_crc_verification 4 300 (fun _ => 0)
    [5, 6, 7, 8, 1, 1] 1 1 (by decide) (by decide) (fun i => Nat.zero_le _)
    (by decide)
